import Mathlib

/-!
Verification of the `ratatui-termina` backend (`src/ratatui-termina/src/lib.rs`).

The Rust source is shallowly embedded: the writer channel is modelled as a
trace (`List Command`) of commands and flush calls, terminal input as a
`List Event`, and the style bookkeeping of `draw` as explicit state passing.
Machine integers (`u8`, `u16`) are modelled as `Nat`; the relevant theorems
carry the corresponding range hypotheses.
-/

namespace RatatuiTermina

/-- Attribute bitset of `ratatui_core::style::Modifier`: the nine independent
flags the spec's data model lists (bold, dim, italic, underlined, slow-blink,
rapid-blink, reversed, hidden, crossed-out). -/
structure Modifier where
  bold : Bool := false
  dim : Bool := false
  italic : Bool := false
  underlined : Bool := false
  slowBlink : Bool := false
  rapidBlink : Bool := false
  reversed : Bool := false
  hidden : Bool := false
  crossedOut : Bool := false
deriving DecidableEq, Repr

/-- The empty modifier set, `Modifier::empty()`. -/
def Modifier.empty : Modifier := {}

/-- Bitset difference `a - b` of the Rust `bitflags` type: a flag is kept
exactly when it is in `a` and not in `b`. -/
def Modifier.sdiff (a b : Modifier) : Modifier where
  bold := a.bold && !b.bold
  dim := a.dim && !b.dim
  italic := a.italic && !b.italic
  underlined := a.underlined && !b.underlined
  slowBlink := a.slowBlink && !b.slowBlink
  rapidBlink := a.rapidBlink && !b.rapidBlink
  reversed := a.reversed && !b.reversed
  hidden := a.hidden && !b.hidden
  crossedOut := a.crossedOut && !b.crossedOut

/-- The termina crate's `RgbaColor` (red, green, blue, alpha channels).
Modelled from the spec: the termina color types are dependency code not under
`src/`; the spec says RGB triples pass through unchanged "with any alpha
channel present in the native side ignored on conversion back". -/
structure RgbaColor where
  red : Nat
  green : Nat
  blue : Nat
  alpha : Nat
deriving DecidableEq, Repr

/-- The termina crate's native `ColorSpec`. Modelled from the spec and the
patterns used in the source: `lib.rs` constructs only `Reset`,
`PaletteIndex(_)` and `TrueColor(_)`, and matches SCREAMING_CASE associated
constants (`ColorSpec::BLACK`, ..., `ColorSpec::BRIGHT_WHITE`), which in Rust
are constants over those structural variants, the named constants being the
standard palette indices 0..=15. -/
inductive ColorSpec where
  | reset
  | paletteIndex (i : Nat)
  | trueColor (c : RgbaColor)
deriving DecidableEq, Repr

/-- Named constant `ColorSpec::BLACK = PaletteIndex(0)`. -/
def ColorSpec.BLACK : ColorSpec := .paletteIndex 0
/-- Named constant `ColorSpec::RED = PaletteIndex(1)`. -/
def ColorSpec.RED : ColorSpec := .paletteIndex 1
/-- Named constant `ColorSpec::GREEN = PaletteIndex(2)`. -/
def ColorSpec.GREEN : ColorSpec := .paletteIndex 2
/-- Named constant `ColorSpec::YELLOW = PaletteIndex(3)`. -/
def ColorSpec.YELLOW : ColorSpec := .paletteIndex 3
/-- Named constant `ColorSpec::BLUE = PaletteIndex(4)`. -/
def ColorSpec.BLUE : ColorSpec := .paletteIndex 4
/-- Named constant `ColorSpec::MAGENTA = PaletteIndex(5)`. -/
def ColorSpec.MAGENTA : ColorSpec := .paletteIndex 5
/-- Named constant `ColorSpec::CYAN = PaletteIndex(6)`. -/
def ColorSpec.CYAN : ColorSpec := .paletteIndex 6
/-- Named constant `ColorSpec::WHITE = PaletteIndex(7)`. -/
def ColorSpec.WHITE : ColorSpec := .paletteIndex 7
/-- Named constant `ColorSpec::BRIGHT_BLACK = PaletteIndex(8)`. -/
def ColorSpec.BRIGHT_BLACK : ColorSpec := .paletteIndex 8
/-- Named constant `ColorSpec::BRIGHT_RED = PaletteIndex(9)`. -/
def ColorSpec.BRIGHT_RED : ColorSpec := .paletteIndex 9
/-- Named constant `ColorSpec::BRIGHT_GREEN = PaletteIndex(10)`. -/
def ColorSpec.BRIGHT_GREEN : ColorSpec := .paletteIndex 10
/-- Named constant `ColorSpec::BRIGHT_YELLOW = PaletteIndex(11)`. -/
def ColorSpec.BRIGHT_YELLOW : ColorSpec := .paletteIndex 11
/-- Named constant `ColorSpec::BRIGHT_BLUE = PaletteIndex(12)`. -/
def ColorSpec.BRIGHT_BLUE : ColorSpec := .paletteIndex 12
/-- Named constant `ColorSpec::BRIGHT_MAGENTA = PaletteIndex(13)`. -/
def ColorSpec.BRIGHT_MAGENTA : ColorSpec := .paletteIndex 13
/-- Named constant `ColorSpec::BRIGHT_CYAN = PaletteIndex(14)`. -/
def ColorSpec.BRIGHT_CYAN : ColorSpec := .paletteIndex 14
/-- Named constant `ColorSpec::BRIGHT_WHITE = PaletteIndex(15)`. -/
def ColorSpec.BRIGHT_WHITE : ColorSpec := .paletteIndex 15

/-- `ratatui_core::style::Color`: Reset, 16 named colors, `Indexed(u8)`,
`Rgb(u8,u8,u8)`. -/
inductive Color where
  | reset
  | black
  | red
  | green
  | yellow
  | blue
  | magenta
  | cyan
  | gray
  | darkGray
  | lightRed
  | lightGreen
  | lightBlue
  | lightYellow
  | lightMagenta
  | lightCyan
  | white
  | indexed (i : Nat)
  | rgb (r g b : Nat)
deriving DecidableEq, Repr

/-- `IntoTermina<ColorSpec> for Color` (`lib.rs` lines 464-495): the named
colors go through the fixed table, `Indexed` becomes `PaletteIndex`, and
`Rgb` becomes `TrueColor` with alpha 255 (the `RgbColor -> RgbaColor`
conversion of termina fills the alpha channel with its maximum). -/
def Color.into_termina : Color → ColorSpec
  | .reset => .reset
  | .black => ColorSpec.BLACK
  | .red => ColorSpec.RED
  | .green => ColorSpec.GREEN
  | .yellow => ColorSpec.YELLOW
  | .blue => ColorSpec.BLUE
  | .magenta => ColorSpec.MAGENTA
  | .cyan => ColorSpec.CYAN
  | .gray => ColorSpec.WHITE
  | .darkGray => ColorSpec.BRIGHT_BLACK
  | .lightRed => ColorSpec.BRIGHT_RED
  | .lightGreen => ColorSpec.BRIGHT_GREEN
  | .lightBlue => ColorSpec.BRIGHT_BLUE
  | .lightYellow => ColorSpec.BRIGHT_YELLOW
  | .lightMagenta => ColorSpec.BRIGHT_MAGENTA
  | .lightCyan => ColorSpec.BRIGHT_CYAN
  | .white => ColorSpec.BRIGHT_WHITE
  | .indexed i => .paletteIndex i
  | .rgb r g b => .trueColor ⟨r, g, b, 255⟩

/-- `FromTermina<ColorSpec> for Color` (`lib.rs` lines 497-523). The Rust
`match` tests the constant patterns `ColorSpec::BLACK`, ...,
`ColorSpec::BRIGHT_WHITE` in order before the catch-all
`ColorSpec::PaletteIndex(v)` arm; since those constants are
`PaletteIndex(0..=15)`, the palette arm is an ordered chain of equality
tests, rendered here as an `if`-chain in the source's arm order. -/
def Color.from_termina : ColorSpec → Color
  | .reset => .reset
  | .paletteIndex v =>
      if v = 0 then .black
      else if v = 1 then .red
      else if v = 2 then .green
      else if v = 3 then .yellow
      else if v = 4 then .blue
      else if v = 5 then .magenta
      else if v = 6 then .cyan
      else if v = 7 then .gray
      else if v = 8 then .darkGray
      else if v = 9 then .lightRed
      else if v = 10 then .lightGreen
      else if v = 12 then .lightBlue
      else if v = 11 then .lightYellow
      else if v = 13 then .lightMagenta
      else if v = 14 then .lightCyan
      else if v = 15 then .white
      else .indexed v
  | .trueColor c => .rgb c.red c.green c.blue

/-- The 16 named colors (8 standard plus 8 bright), distinguishing them from
`Reset`, `Indexed` and `Rgb`. -/
def Color.isNamed : Color → Bool
  | .black | .red | .green | .yellow | .blue | .magenta | .cyan | .gray => true
  | .darkGray | .lightRed | .lightGreen | .lightBlue | .lightYellow => true
  | .lightMagenta | .lightCyan | .white => true
  | _ => false

/-- The named color assigned to palette index `i < 16` by the fixed table of
the conversion (index 0 is black, ..., index 15 is white). -/
def namedOfIndex : Nat → Color
  | 0 => .black
  | 1 => .red
  | 2 => .green
  | 3 => .yellow
  | 4 => .blue
  | 5 => .magenta
  | 6 => .cyan
  | 7 => .gray
  | 8 => .darkGray
  | 9 => .lightRed
  | 10 => .lightGreen
  | 11 => .lightYellow
  | 12 => .lightBlue
  | 13 => .lightMagenta
  | 14 => .lightCyan
  | 15 => .white
  | _ => .reset

/-- The termina crate's `SgrModifiers` bitflags: one flag per SGR attribute
command that `diff_modifiers` can request. Modelled from the spec: termina is
dependency code not under `src/`; the spec's command families are the shared
"intensity normal" and "blink none" off-codes and the independent on/off code
pairs for the remaining attributes. All flags start cleared
(`SgrModifiers::default()`). -/
structure SgrModifiers where
  noReverse : Bool := false
  intensityNormal : Bool := false
  noItalic : Bool := false
  noStrikeThrough : Bool := false
  noInvisible : Bool := false
  blinkNone : Bool := false
  reverse : Bool := false
  intensityBold : Bool := false
  intensityDim : Bool := false
  italic : Bool := false
  strikeThrough : Bool := false
  invisible : Bool := false
  blinkSlow : Bool := false
  blinkRapid : Bool := false
deriving DecidableEq, Repr

/-- `SgrModifiers::default()`: no flag set. -/
def SgrModifiers.empty : SgrModifiers := {}

/-- `diff_modifiers` (`lib.rs` lines 525-578). The Rust body starts from
`SgrModifiers::default()` and `|=`s one distinct flag per `if`; the two
branches that both set `INTENSITY_NORMAL` (removed bold with `!to.contains(DIM)`,
and removed dim) become the disjunction in that field. Argument `a` is the
source's `from`, argument `b` its `to`. -/
def diff_modifiers (a b : Modifier) : SgrModifiers :=
  let removed := a.sdiff b
  let added := b.sdiff a
  { noReverse := removed.reversed
    intensityNormal := (removed.bold && !b.dim) || removed.dim
    noItalic := removed.italic
    noStrikeThrough := removed.crossedOut
    noInvisible := removed.hidden
    blinkNone := removed.slowBlink || removed.rapidBlink
    reverse := added.reversed
    intensityBold := added.bold
    intensityDim := added.dim
    italic := added.italic
    strikeThrough := added.crossedOut
    invisible := added.hidden
    blinkSlow := added.slowBlink
    blinkRapid := added.rapidBlink }

/-- The individual SGR attribute codes an `SgrModifiers` value renders to. -/
inductive SgrCode where
  | noReverse
  | intensityNormal
  | noItalic
  | noStrikeThrough
  | noInvisible
  | blinkNone
  | reverse
  | intensityBold
  | intensityDim
  | italic
  | strikeThrough
  | invisible
  | blinkSlow
  | blinkRapid
deriving DecidableEq, Repr

/-- Rendering of an `SgrModifiers` flag set to the ordered list of attribute
codes it emits, one code per set flag. Modelled from the spec: the spec's
contract is an "ordered list of attribute commands" with every turn-off
command emitted before every turn-on command, matching the flag order of the
source's `diff_modifiers` body. -/
def SgrModifiers.toCodes (m : SgrModifiers) : List SgrCode :=
  (if m.noReverse then [SgrCode.noReverse] else []) ++
  (if m.intensityNormal then [SgrCode.intensityNormal] else []) ++
  (if m.noItalic then [SgrCode.noItalic] else []) ++
  (if m.noStrikeThrough then [SgrCode.noStrikeThrough] else []) ++
  (if m.noInvisible then [SgrCode.noInvisible] else []) ++
  (if m.blinkNone then [SgrCode.blinkNone] else []) ++
  (if m.reverse then [SgrCode.reverse] else []) ++
  (if m.intensityBold then [SgrCode.intensityBold] else []) ++
  (if m.intensityDim then [SgrCode.intensityDim] else []) ++
  (if m.italic then [SgrCode.italic] else []) ++
  (if m.strikeThrough then [SgrCode.strikeThrough] else []) ++
  (if m.invisible then [SgrCode.invisible] else []) ++
  (if m.blinkSlow then [SgrCode.blinkSlow] else []) ++
  (if m.blinkRapid then [SgrCode.blinkRapid] else [])

/-- Effect of one SGR attribute code on a terminal's attribute bitset.
Modelled from the spec: the shared "intensity normal" code turns off both
bold and dim, the shared "blink none" code turns off both blink flags, and
every other code sets or clears exactly its own flag. -/
def applyCode (s : Modifier) : SgrCode → Modifier
  | .noReverse => { s with reversed := false }
  | .intensityNormal => { s with bold := false, dim := false }
  | .noItalic => { s with italic := false }
  | .noStrikeThrough => { s with crossedOut := false }
  | .noInvisible => { s with hidden := false }
  | .blinkNone => { s with slowBlink := false, rapidBlink := false }
  | .reverse => { s with reversed := true }
  | .intensityBold => { s with bold := true }
  | .intensityDim => { s with dim := true }
  | .italic => { s with italic := true }
  | .strikeThrough => { s with crossedOut := true }
  | .invisible => { s with hidden := true }
  | .blinkSlow => { s with slowBlink := true }
  | .blinkRapid => { s with rapidBlink := true }

/-- Applying every code of an `SgrModifiers` flag set, in rendering order, to
a terminal attribute state. -/
def applyModifiers (m : SgrModifiers) (s : Modifier) : Modifier :=
  m.toCodes.foldl applyCode s

/-- The combined attribute update `termina::escape::csi::SgrAttributes` as
used by `draw`: optional foreground, optional background, and a modifier flag
set, each `None`/empty by default. Modelled from the spec's combined
attribute-update command (termina is dependency code not under `src/`). -/
structure SgrAttributes where
  foreground : Option ColorSpec := none
  background : Option ColorSpec := none
  modifiers : SgrModifiers := {}
deriving DecidableEq, Repr

/-- `SgrAttributes::is_empty`: no field set. -/
def SgrAttributes.isEmpty (a : SgrAttributes) : Bool :=
  a.foreground.isNone && a.background.isNone && a.modifiers == SgrModifiers.empty

/-- A buffer cell as `draw` consumes it: display text, foreground,
background, underline color and attribute bitset. -/
structure Cell where
  symbol : String
  fg : Color := .reset
  bg : Color := .reset
  underline_color : Color := .reset
  modifier : Modifier := {}
deriving DecidableEq, Repr

/-- `csi::EraseInDisplay` variants used by the backend. -/
inductive EraseInDisplay where
  | eraseDisplay
  | eraseToEndOfDisplay
  | eraseToStartOfDisplay
deriving DecidableEq, Repr

/-- `csi::EraseInLine` variants used by the backend. -/
inductive EraseInLine where
  | eraseLine
  | eraseToEndOfLine
deriving DecidableEq, Repr

/-- `ratatui_core::backend::ClearType`. -/
inductive ClearType where
  | all
  | afterCursor
  | beforeCursor
  | currentLine
  | untilNewLine
deriving DecidableEq, Repr

/-- One item of the output channel's trace: each command the backend writes,
plus an explicit `flush` marker for each `flush()` call on the channel.
`cursorPosition` and `setTopAndBottomMargins` carry the one-based values the
source produces with `OneBased::from_zero_based` (zero-based value plus 1). -/
inductive Command where
  | cursorPosition (col line : Nat)
  | sgr (attrs : SgrAttributes)
  | sgrUnderlineColor (c : ColorSpec)
  | sgrReset
  | print (s : String)
  | eraseInDisplay (e : EraseInDisplay)
  | eraseInLine (e : EraseInLine)
  | setShowCursorMode
  | resetShowCursorMode
  | setTopAndBottomMargins (top bottom : Nat)
  | scrollUp (n : Nat)
  | scrollDown (n : Nat)
  | requestActivePositionReport
  | newline
  | flush
deriving DecidableEq, Repr

/-- The local state of one `draw` call (`lib.rs` lines 252-257): tracked
foreground, background, underline color, modifier set and last drawn
position, initialized fresh at the top of every call. -/
structure DrawState where
  fg : Color
  bg : Color
  underline_color : Color
  modifier : Modifier
  lastPos : Option (Nat × Nat)
deriving DecidableEq, Repr

/-- The initial draw state: all colors `Reset`, empty modifier set, no last
position (`lib.rs` lines 252-257). -/
def initDrawState : DrawState :=
  { fg := .reset, bg := .reset, underline_color := .reset
    modifier := Modifier.empty, lastPos := none }

/-- The cursor-move elision test of `draw` (`lib.rs` line 260):
`matches!(last_pos, Some(p) if x == p.x + 1 && y == p.y)`. -/
def isNext : Option (Nat × Nat) → Nat → Nat → Bool
  | some p, x, y => x == p.1 + 1 && y == p.2
  | none, _, _ => false

/-- One iteration of the `draw` loop (`lib.rs` lines 258-306) for the triple
`(x, y, cell)`: position command unless the previous position was exactly one
column to the left on the same row, then the style diff against the tracked
state (underline-color command first, then the combined attribute command
when non-empty), then the glyph. The conditional Rust assignments to the
tracked fields are written unconditionally: when the guard fails the assigned
value equals the old one. -/
def drawStep (s : DrawState) (x y : Nat) (cell : Cell) :
    DrawState × List Command :=
  let posCmds : List Command :=
    if isNext s.lastPos x y then [] else [.cursorPosition (x + 1) (y + 1)]
  let attrs : SgrAttributes :=
    { foreground := if cell.fg = s.fg then none else some cell.fg.into_termina
      background := if cell.bg = s.bg then none else some cell.bg.into_termina
      modifiers :=
        if cell.modifier = s.modifier then SgrModifiers.empty
        else diff_modifiers s.modifier cell.modifier }
  let underlineCmds : List Command :=
    if cell.underline_color = s.underline_color then []
    else [.sgrUnderlineColor cell.underline_color.into_termina]
  let attrCmds : List Command := if attrs.isEmpty then [] else [.sgr attrs]
  let s' : DrawState :=
    { fg := cell.fg, bg := cell.bg, underline_color := cell.underline_color
      modifier := cell.modifier, lastPos := some (x, y) }
  (s', posCmds ++ underlineCmds ++ attrCmds ++ [.print cell.symbol])

/-- The `draw` loop over the remaining content, threading the tracked state. -/
def drawLoop (s : DrawState) : List (Nat × Nat × Cell) → List Command
  | [] => []
  | (x, y, cell) :: rest =>
      let p := drawStep s x y cell
      p.2 ++ drawLoop p.1 rest

/-- `Backend::draw` (`lib.rs` lines 248-309): fresh local state, the loop
over the content, then one full `Sgr::Reset`; no flush. -/
def draw (content : List (Nat × Nat × Cell)) : List Command :=
  drawLoop initDrawState content ++ [.sgrReset]

/-- `erase_in_display` (`lib.rs` lines 208-215): write the command, flush. -/
def erase_in_display (e : EraseInDisplay) : List Command :=
  [.eraseInDisplay e, .flush]

/-- `erase_in_line` (`lib.rs` lines 217-224): write the command, flush. -/
def erase_in_line (e : EraseInLine) : List Command :=
  [.eraseInLine e, .flush]

/-- `hide_cursor` (`lib.rs` lines 311-314): DEC private mode reset of
`ShowCursor`, then flush. -/
def hide_cursor : List Command := [.resetShowCursorMode, .flush]

/-- `show_cursor` (`lib.rs` lines 316-319): DEC private mode set of
`ShowCursor`, then flush. -/
def show_cursor : List Command := [.setShowCursorMode, .flush]

/-- `set_cursor_position` (`lib.rs` lines 343-353): one position command with
both coordinates translated to one-based, then flush. -/
def set_cursor_position (x y : Nat) : List Command :=
  [.cursorPosition (x + 1) (y + 1), .flush]

/-- `clear_region` (`lib.rs` lines 359-371): each clear kind maps to exactly
one erase command. -/
def clear_region : ClearType → List Command
  | .all => erase_in_display .eraseDisplay
  | .afterCursor => erase_in_display .eraseToEndOfDisplay
  | .beforeCursor => erase_in_display .eraseToStartOfDisplay
  | .currentLine => erase_in_line .eraseLine
  | .untilNewLine => erase_in_line .eraseToEndOfLine

/-- `clear` (`lib.rs` lines 355-357). -/
def clear : List Command := clear_region .all

/-- `append_lines` (`lib.rs` lines 373-378): `n` newlines, then flush. -/
def append_lines (n : Nat) : List Command :=
  List.replicate n Command.newline ++ [.flush]

/-- `scroll_region_up` (`lib.rs` lines 411-426): one write of set-margins for
the region (both bounds translated to one-based), scroll-up by `amount`, and
set-margins back to the full screen (one-based top 1, bottom 65535, from the
zero-based pair `(0, u16::MAX - 1)`). No flush call appears in the source. -/
def scroll_region_up (start stop amount : Nat) : List Command :=
  [.setTopAndBottomMargins (start + 1) (stop + 1),
   .scrollUp amount,
   .setTopAndBottomMargins 1 65535]

/-- `scroll_region_down` (`lib.rs` lines 428-443): same bracket with
scroll-down. No flush call appears in the source. -/
def scroll_region_down (start stop amount : Nat) : List Command :=
  [.setTopAndBottomMargins (start + 1) (stop + 1),
   .scrollDown amount,
   .setTopAndBottomMargins 1 65535]

/-- Classified input events of the termina event stream, as far as the
backend inspects them: a cursor position report (with one-based line and
column, as in the wire protocol), or anything else. -/
inductive Event where
  | activePositionReport (line col : Nat)
  | key (code : Nat)
  | resize (w h : Nat)
  | other (n : Nat)
deriving DecidableEq, Repr

/-- The filter `get_cursor_position` passes to `terminal.read` (`lib.rs`
lines 328-333): only an active position report matches. -/
def isPositionReport : Event → Bool
  | .activePositionReport _ _ => true
  | _ => false

/-- The termina blocking filtered read. Modelled from the spec: termina's
`Terminal::read` is dependency code not under `src/`; the spec says it is a
blocking read "that discards every event not matching a
position-report-response shape", so it scans the stream, drops every
non-matching event, and returns the first matching one together with the
remaining stream. An exhausted stream is the spec's unrecoverable failure,
returned as `none`. -/
def terminalRead (f : Event → Bool) : List Event → Option (Event × List Event)
  | [] => none
  | e :: rest => if f e then some (e, rest) else terminalRead f rest

/-- `get_cursor_position` (`lib.rs` lines 321-341): write the position-report
request, flush, then the blocking filtered read; on a matching report return
its coordinates converted back to zero-based (`OneBased::get_zero_based`,
value minus 1) as `(x, y) = (col - 1, line - 1)`, plus the rest of the
stream. -/
def get_cursor_position (events : List Event) :
    List Command × Option ((Nat × Nat) × List Event) :=
  ([.requestActivePositionReport, .flush],
   match terminalRead isPositionReport events with
   | some (.activePositionReport line col, rest) =>
       some ((col - 1, line - 1), rest)
   | _ => none)

/-- Position commands in a trace (the absolute cursor moves of `draw`). -/
def isPosCmd : Command → Bool
  | .cursorPosition _ _ => true
  | _ => false

/-- Number of absolute cursor-position commands in a trace. -/
def countPos (l : List Command) : Nat := l.countP isPosCmd

/-- A run of cells at contiguous columns of row `y` starting at column `x`:
each cell is exactly one column to the right of the previous one. -/
def contiguousFrom (x y : Nat) : List Cell → List (Nat × Nat × Cell)
  | [] => []
  | c :: cs => (x, y, c) :: contiguousFrom (x + 1) y cs

/-! Helper lemmas shared by the claim theorems. -/

theorem mem_ite_nil {α : Type} (x a : α) (c : Bool) :
    (x ∈ if c then [a] else []) ↔ (c = true ∧ x = a) := by
  cases c <;> simp

theorem count_ite_nil {α : Type} [DecidableEq α] (c : Bool) (a x : α) :
    List.count x (if c then [a] else []) = if c = true ∧ a = x then 1 else 0 := by
  cases c <;> by_cases h : a = x <;> simp [h, List.count_cons]

theorem diff_modifiers_intensityNormal (a b : Modifier) :
    (diff_modifiers a b).intensityNormal =
      (((a.sdiff b).bold && !b.dim) || (a.sdiff b).dim) := rfl

theorem mem_toCodes_intensityNormal (m : SgrModifiers) :
    SgrCode.intensityNormal ∈ m.toCodes ↔ m.intensityNormal = true := by
  simp [SgrModifiers.toCodes, List.mem_append, mem_ite_nil]

theorem count_toCodes_intensityNormal (m : SgrModifiers) :
    m.toCodes.count SgrCode.intensityNormal =
      if m.intensityNormal then 1 else 0 := by
  simp [SgrModifiers.toCodes, List.count_append, count_ite_nil]

theorem countPos_append (a b : List Command) :
    countPos (a ++ b) = countPos a + countPos b := by
  simp [countPos, List.countP_append]

theorem countPos_drawStep (s : DrawState) (x y : Nat) (c : Cell) :
    countPos (drawStep s x y c).2 =
      if isNext s.lastPos x y then 0 else 1 := by
  cases hn : isNext s.lastPos x y <;>
    simp [drawStep, hn, countPos, List.countP_append] <;>
    split_ifs <;> simp [isPosCmd]

theorem lastPos_drawStep (s : DrawState) (x y : Nat) (c : Cell) :
    (drawStep s x y c).1.lastPos = some (x, y) := rfl

theorem countPos_drawLoop_contiguous (cs : List Cell) :
    ∀ (s : DrawState) (x y : Nat), s.lastPos = some (x, y) →
      countPos (drawLoop s (contiguousFrom (x + 1) y cs)) = 0 := by
  induction cs with
  | nil => intro s x y _; simp [contiguousFrom, drawLoop, countPos]
  | cons c cs ih =>
      intro s x y h
      simp only [contiguousFrom, drawLoop]
      rw [countPos_append, countPos_drawStep]
      rw [ih (drawStep s (x + 1) y c).1 (x + 1) y (lastPos_drawStep s (x + 1) y c)]
      simp [isNext, h]

theorem terminalRead_skip (f : Event → Bool) (pre : List Event) (e : Event)
    (post : List Event) (h : ∀ x ∈ pre, f x = false) (he : f e = true) :
    terminalRead f (pre ++ e :: post) = some (e, post) := by
  induction pre with
  | nil => simp [terminalRead, he]
  | cons p pre ih =>
      have hp : f p = false := h p (List.mem_cons_self p pre)
      simp only [List.cons_append, terminalRead, hp]
      simp only [Bool.false_eq_true, if_false]
      exact ih fun x hx => h x (List.mem_cons_of_mem p hx)

/-! Claim theorems. -/

/-- C1: evaluation of the code at the failing input of the round-trip law.
The spec's law says applying `diff_modifiers A B` to a terminal in attribute
state `A` leaves it in state `B`; at `A = {}` and `B = {underlined}` the
source's `diff_modifiers` emits no command at all (it never inspects the
underlined flag), so the terminal stays in `A` and never reaches `B`. -/
theorem c1_diff_underline_not_applied :
    diff_modifiers Modifier.empty { underlined := true } = SgrModifiers.empty ∧
    applyModifiers (diff_modifiers Modifier.empty { underlined := true })
      Modifier.empty = Modifier.empty ∧
    Modifier.empty ≠ ({ underlined := true } : Modifier) := by
  decide

/-- C2 counterexample: palette index 0 does not round-trip: converting
`Indexed(0)` to the native spec gives `PaletteIndex(0)`, which the backward
conversion matches against the constant `ColorSpec::BLACK` first, returning
the named color `Black` rather than `Indexed(0)`. -/
theorem c2_indexed_zero_not_roundtrip :
    Color.from_termina (Color.into_termina (.indexed 0)) ≠ Color.indexed 0 := by
  decide

/-- C2 (amended): the indexed round-trip is exact for every palette index in
16..256; an index below 16 instead comes back as the corresponding named
color of the fixed table. -/
theorem c2_indexed_roundtrip (i j : Nat) (h16 : 16 ≤ i) (h256 : i < 256)
    (hj : j < 16) :
    Color.from_termina (Color.into_termina (.indexed i)) = Color.indexed i ∧
    Color.from_termina (Color.into_termina (.indexed j)) = namedOfIndex j := by
  constructor
  · simp only [Color.into_termina, Color.from_termina]
    repeat rw [if_neg (by omega)]
  · interval_cases j <;> decide

/-- C2 witness: the amended round-trip at indices 42 and 3. -/
theorem c2_indexed_roundtrip_witness :
    Color.from_termina (Color.into_termina (.indexed 42)) = Color.indexed 42 ∧
    Color.from_termina (Color.into_termina (.indexed 3)) = namedOfIndex 3 :=
  c2_indexed_roundtrip 42 3 (by decide) (by decide) (by decide)

/-- C4 counterexample: `scroll_region_up` never flushes; its trace for the
region `[0, 1)` with amount 1 contains no flush at all, so not every cursor
and screen control operation flushes immediately after writing. -/
theorem c4_scroll_up_no_flush :
    Command.flush ∉ scroll_region_up 0 1 1 := by
  decide

/-- C4 (amended): `show_cursor`, `hide_cursor`, `set_cursor_position` and
`clear_region` (through `erase_in_display` and `erase_in_line`) all end their
trace with a flush of the output channel, while `scroll_region_up` and
`scroll_region_down` write their commands without any flush. -/
theorem c4_flush_discipline (x y : Nat) (ct : ClearType) (e : EraseInDisplay)
    (e' : EraseInLine) (s t n : Nat) :
    hide_cursor.getLast? = some .flush ∧
    show_cursor.getLast? = some .flush ∧
    (set_cursor_position x y).getLast? = some .flush ∧
    (clear_region ct).getLast? = some .flush ∧
    (erase_in_display e).getLast? = some .flush ∧
    (erase_in_line e').getLast? = some .flush ∧
    Command.flush ∉ scroll_region_up s t n ∧
    Command.flush ∉ scroll_region_down s t n := by
  refine ⟨rfl, rfl, rfl, ?_, rfl, rfl, ?_, ?_⟩
  · cases ct <;> rfl
  · simp [scroll_region_up]
  · simp [scroll_region_down]

/-- C6: drawing `[(0,0,"A",fg=red), (1,0,"B",fg=red)]` on the neutral state
emits exactly: position for (0,0) (one-based (1,1)), one combined attribute
command setting only the foreground to red, the glyph "A", the glyph "B",
and the full reset; no second foreground command appears. -/
theorem c6_adjacent_same_style :
    draw [(0, 0, { symbol := "A", fg := .red }),
          (1, 0, { symbol := "B", fg := .red })] =
      [Command.cursorPosition 1 1,
       Command.sgr { foreground := some ColorSpec.RED },
       Command.print "A",
       Command.print "B",
       Command.sgrReset] := by
  decide

/-- C7: for every region and every amount, including amount 0, the scroll
operations emit exactly the strict bracket: set the margins to the region,
scroll by the amount, then unconditionally restore the full-screen margins;
the restoration is the final command in every case. -/
theorem c7_scroll_bracket (start stop amount : Nat) :
    scroll_region_up start stop amount =
      [Command.setTopAndBottomMargins (start + 1) (stop + 1),
       Command.scrollUp amount,
       Command.setTopAndBottomMargins 1 65535] ∧
    scroll_region_down start stop amount =
      [Command.setTopAndBottomMargins (start + 1) (stop + 1),
       Command.scrollDown amount,
       Command.setTopAndBottomMargins 1 65535] ∧
    (scroll_region_up start stop amount).getLast? =
      some (Command.setTopAndBottomMargins 1 65535) ∧
    (scroll_region_down start stop amount).getLast? =
      some (Command.setTopAndBottomMargins 1 65535) :=
  ⟨rfl, rfl, rfl, rfl⟩

/-- C9: each of the 16 named colors round-trips exactly through the fixed
bidirectional table of the native conversion. -/
theorem c9_named_roundtrip (c : Color) (h : c.isNamed = true) :
    Color.from_termina c.into_termina = c := by
  cases c <;> simp [Color.isNamed] at h <;> rfl

/-- C9 witness: the named round-trip at red. -/
theorem c9_named_roundtrip_witness :
    Color.isNamed .red = true ∧
    Color.from_termina (Color.into_termina .red) = Color.red :=
  ⟨rfl, c9_named_roundtrip .red rfl⟩

/-- C10: the draw state is initialized fresh inside every call (no last
position), so every call with a non-empty cell sequence emits an absolute
cursor-position command as its very first command, for the first cell,
regardless of what any earlier call did. -/
theorem c10_fresh_state_repositions (x y : Nat) (c : Cell)
    (rest : List (Nat × Nat × Cell)) :
    (draw ((x, y, c) :: rest)).head? =
      some (Command.cursorPosition (x + 1) (y + 1)) := by
  simp [draw, drawLoop, drawStep, isNext, initDrawState]

/-- C3 counterexample: with `A = {bold, dim}` and `B = {dim}`, bold is in
`A \ B` and dim is not in `B \ A` (it is in both states), so the claim
requires the shared "intensity normal" code to be emitted; the source's
guard is `!to.contains(DIM)`, which fails because dim is in `B`, so no
intensity code is emitted at all. -/
theorem c3_intensity_guard_counterexample :
    (Modifier.sdiff { bold := true, dim := true } { dim := true }).bold = true ∧
    (Modifier.sdiff { dim := true } { bold := true, dim := true }).dim = false ∧
    SgrCode.intensityNormal ∉
      (diff_modifiers { bold := true, dim := true } { dim := true }).toCodes := by
  decide

/-- C3 (amended): the "intensity normal" code is emitted when bold is
removed and dim is absent from the target state `B` (rather than merely not
being added), and always when dim is removed; and it appears at most once in
the emitted code list, never twice. -/
theorem c3_intensity_normal_emission (a b : Modifier) :
    ((a.sdiff b).bold = true → b.dim = false →
      SgrCode.intensityNormal ∈ (diff_modifiers a b).toCodes) ∧
    ((a.sdiff b).dim = true →
      SgrCode.intensityNormal ∈ (diff_modifiers a b).toCodes) ∧
    (diff_modifiers a b).toCodes.count SgrCode.intensityNormal ≤ 1 := by
  refine ⟨fun hb hd => ?_, fun hd => ?_, ?_⟩
  · rw [mem_toCodes_intensityNormal, diff_modifiers_intensityNormal, hb, hd]
    simp
  · rw [mem_toCodes_intensityNormal, diff_modifiers_intensityNormal, hd]
    simp
  · rw [count_toCodes_intensityNormal]
    split <;> simp

/-- C3 witness: at `A = {bold, dim}` and `B = {}` both emission conditions
hold and the code appears exactly once. -/
theorem c3_intensity_normal_emission_witness :
    SgrCode.intensityNormal ∈
      (diff_modifiers { bold := true, dim := true } {}).toCodes ∧
    (diff_modifiers { bold := true, dim := true } {} :
      SgrModifiers).toCodes.count SgrCode.intensityNormal ≤ 1 := by
  have h := c3_intensity_normal_emission { bold := true, dim := true } {}
  exact ⟨h.1 (by decide) (by decide), h.2.2⟩

/-- C5: drawing a non-empty run of cells at contiguous columns of one row
emits exactly one absolute cursor-position command, namely as the very first
command, for the first cell; and the per-cell step emits a position command
first whenever the cell is not exactly one column to the right of the
previously drawn cell. -/
theorem c5_position_elision (x y : Nat) (c0 : Cell) (cs : List Cell)
    (s : DrawState) (a b : Nat) (c : Cell)
    (h : isNext s.lastPos a b = false) :
    countPos (draw (contiguousFrom x y (c0 :: cs))) = 1 ∧
    (draw (contiguousFrom x y (c0 :: cs))).head? =
      some (Command.cursorPosition (x + 1) (y + 1)) ∧
    (drawStep s a b c).2.head? =
      some (Command.cursorPosition (a + 1) (b + 1)) := by
  refine ⟨?_, ?_, ?_⟩
  · simp only [contiguousFrom, draw, drawLoop]
    rw [countPos_append, countPos_append, countPos_drawStep]
    rw [countPos_drawLoop_contiguous cs (drawStep initDrawState x y c0).1 x y
      (lastPos_drawStep initDrawState x y c0)]
    simp [isNext, initDrawState, countPos, isPosCmd]
  · simp [contiguousFrom, draw, drawLoop, drawStep, isNext, initDrawState]
  · simp [drawStep, h]

/-- C5 witness: a two-cell contiguous run at (0,0) and the step at a state
whose last position (5,5) does not precede (2,3). -/
theorem c5_position_elision_witness :
    countPos (draw (contiguousFrom 0 0 [{ symbol := "A" }, { symbol := "B" }])) = 1 ∧
    (draw (contiguousFrom 0 0 [{ symbol := "A" }, { symbol := "B" }])).head? =
      some (Command.cursorPosition 1 1) ∧
    (drawStep { initDrawState with lastPos := some (5, 5) } 2 3
      { symbol := "C" }).2.head? = some (Command.cursorPosition 3 4) :=
  c5_position_elision 0 0 { symbol := "A" } [{ symbol := "B" }]
    { initDrawState with lastPos := some (5, 5) } 2 3 { symbol := "C" } rfl

/-- C8: `get_cursor_position` writes the position-report request and then
flushes, and its blocking filtered read drops every non-matching event
before the first position report, returns that report's coordinates
converted from one-based to zero-based `(x, y) = (col - 1, line - 1)`, and
leaves only the events after the report in the stream (none of the dropped
events is queued back). -/
theorem c8_cursor_query (pre : List Event) (line col : Nat)
    (post : List Event) (h : ∀ e ∈ pre, isPositionReport e = false) :
    get_cursor_position (pre ++ .activePositionReport line col :: post) =
      ([Command.requestActivePositionReport, Command.flush],
       some ((col - 1, line - 1), post)) := by
  simp only [get_cursor_position]
  rw [terminalRead_skip isPositionReport pre (.activePositionReport line col)
    post h rfl]

/-- C8 witness: a key press and a resize precede the report (3,7); both are
discarded, the zero-based position (6,2) is returned and only the trailing
event remains. -/
theorem c8_cursor_query_witness :
    get_cursor_position
        [Event.key 5, Event.resize 80 24,
         Event.activePositionReport 3 7, Event.other 9] =
      ([Command.requestActivePositionReport, Command.flush],
       some ((6, 2), [Event.other 9])) :=
  c8_cursor_query [Event.key 5, Event.resize 80 24] 3 7 [Event.other 9]
    (by decide)

end RatatuiTermina
